import Mathlib

/-!
Verification development for the Stellar-Save ROSCA contract.

The contract state lives in a durable key-value store. We embed the store as a
function from structured keys to optional values; the key constructors mirror
the StorageKeyBuilder domains (member_profile, group_data, group_status,
contribution_individual, contribution_cycle_total, contribution_cycle_count),
so keys of different domains never collide.

Machine integers of the source (u32, u64, i128) are embedded as Nat and Int.
The source contract is built with overflow checks enabled, so arithmetic never
wraps; the embedding therefore uses unbounded arithmetic, which agrees with
the source on every execution that completes.
-/

namespace StellarSave

/-- Account identities are opaque; we embed them as strings. -/
abbrev Address := String

/-- Lifecycle status of a group. The variant used by the contribute code as
the default for an absent status record is spelled Pending in the source; it
is the Forming state of the data model (the spec notes naming may vary), the
state of a group before activation. -/
inductive GroupStatus where
  | Pending
  | Active
  | Completed
  | Cancelled
deriving DecidableEq, Repr

/-- Modelled from the spec: the body of accepts_contributions on
group::GroupStatus is not among the repository sources, only its call sites;
section 4.1 of the design fixes it as true only for Active, everything else
false (fail closed). -/
def GroupStatus.accepts_contributions : GroupStatus → Bool
  | GroupStatus.Active => true
  | _ => false

/-- The Group entity. started_at is a u64 timestamp, 0 before activation. -/
structure Group where
  admin : Address
  name : String
  contribution_amount : Int
  cycle_duration : Nat
  max_members : Nat
  member_count : Nat
  current_cycle : Nat
  started_at : Nat
deriving DecidableEq, Repr

/-- One recorded contribution, keyed by (group_id, cycle, contributor). -/
structure ContributionRecord where
  contributor : Address
  group_id : Nat
  cycle : Nat
  amount : Int
  contributed_at : Nat
deriving DecidableEq, Repr

/-- Error codes of the contract. -/
inductive StellarSaveError where
  | GroupNotFound
  | NotMember
  | InvalidState
  | InvalidAmount
  | InvalidConfig
  | AlreadyContributed
deriving DecidableEq, Repr

/-- Events published by the contribute entry point. -/
inductive Event where
  | ContributionMade (group_id : Nat) (contributor : Address) (amount : Int)
      (cycle : Nat) (cycle_total : Int) (timestamp : Nat)
  | CycleComplete (group_id : Nat) (cycle : Nat)
deriving DecidableEq, Repr

/-- Storage keys, one constructor per StorageKeyBuilder domain. -/
inductive StorageKey where
  | memberProfile (group_id : Nat) (addr : Address)
  | groupData (group_id : Nat)
  | groupStatus (group_id : Nat)
  | contributionIndividual (group_id : Nat) (cycle : Nat) (addr : Address)
  | contributionCycleTotal (group_id : Nat) (cycle : Nat)
  | contributionCycleCount (group_id : Nat) (cycle : Nat)
  | nextGroupId
deriving DecidableEq, Repr

/-- Values stored in the key-value store. -/
inductive StorageVal where
  | groupV (g : Group)
  | statusV (s : GroupStatus)
  | memberV
  | contribV (c : ContributionRecord)
  | intV (i : Int)
  | natV (n : Nat)
deriving DecidableEq, Repr

/-- The persistent store: a partial map from keys to values. -/
def Storage := StorageKey → Option StorageVal

/-- Write one key (env.storage().persistent().set). -/
def Storage.set (σ : Storage) (k : StorageKey) (v : StorageVal) : Storage :=
  fun q => if q = k then some v else σ q

/-- Existence check (env.storage().persistent().has). -/
def Storage.has (σ : Storage) (k : StorageKey) : Bool :=
  (σ k).isSome

/-- Typed read of the Group record; a value of another shape reads as absent
(the key domains make that impossible for states reachable by the contract). -/
def getGroup (σ : Storage) (group_id : Nat) : Option Group :=
  match σ (StorageKey.groupData group_id) with
  | some (StorageVal.groupV g) => some g
  | _ => none

/-- Typed read of the group status record. -/
def getStatus (σ : Storage) (group_id : Nat) : Option GroupStatus :=
  match σ (StorageKey.groupStatus group_id) with
  | some (StorageVal.statusV s) => some s
  | _ => none

/-- Typed read of an individual contribution record. -/
def getContribution (σ : Storage) (group_id : Nat) (cycle : Nat) (addr : Address) :
    Option ContributionRecord :=
  match σ (StorageKey.contributionIndividual group_id cycle addr) with
  | some (StorageVal.contribV c) => some c
  | _ => none

/-- Typed read of the running total of a cycle (i128). -/
def getCycleTotal (σ : Storage) (group_id : Nat) (cycle : Nat) : Option Int :=
  match σ (StorageKey.contributionCycleTotal group_id cycle) with
  | some (StorageVal.intV i) => some i
  | _ => none

/-- Typed read of the running contributor count of a cycle (u32). -/
def getCycleCount (σ : Storage) (group_id : Nat) (cycle : Nat) : Option Nat :=
  match σ (StorageKey.contributionCycleCount group_id cycle) with
  | some (StorageVal.natV n) => some n
  | _ => none

/-- Typed read of the fresh-id counter. -/
def getNextGroupId (σ : Storage) : Option Nat :=
  match σ StorageKey.nextGroupId with
  | some (StorageVal.natV n) => some n
  | _ => none

/-- The contribute entry point, translated from the source: member check,
group load, status check (default Pending when the status record is absent),
amount check, duplicate check, then the three writes (record, cycle total,
cycle count) and the events. Every early return happens before any write, so
the error branches return the store unchanged. -/
def contribute (σ : Storage) (group_id : Nat) (contributor : Address) (now : Nat) :
    Except StellarSaveError Unit × Storage × List Event :=
  if (σ (StorageKey.memberProfile group_id contributor)).isSome = false then
    (Except.error StellarSaveError.NotMember, σ, [])
  else
    match getGroup σ group_id with
    | none => (Except.error StellarSaveError.GroupNotFound, σ, [])
    | some group =>
      let status := (getStatus σ group_id).getD GroupStatus.Pending
      if status.accepts_contributions = false then
        (Except.error StellarSaveError.InvalidState, σ, [])
      else
        let amount := group.contribution_amount
        if amount ≤ 0 then
          (Except.error StellarSaveError.InvalidAmount, σ, [])
        else
          let cycle := group.current_cycle
          if (σ (StorageKey.contributionIndividual group_id cycle contributor)).isSome = true then
            (Except.error StellarSaveError.AlreadyContributed, σ, [])
          else
            let contribution : ContributionRecord :=
              { contributor := contributor, group_id := group_id, cycle := cycle,
                amount := amount, contributed_at := now }
            let σ1 := σ.set (StorageKey.contributionIndividual group_id cycle contributor)
                        (StorageVal.contribV contribution)
            let current_total := (getCycleTotal σ1 group_id cycle).getD 0
            let σ2 := σ1.set (StorageKey.contributionCycleTotal group_id cycle)
                        (StorageVal.intV (current_total + amount))
            let current_count := (getCycleCount σ2 group_id cycle).getD 0
            let σ3 := σ2.set (StorageKey.contributionCycleCount group_id cycle)
                        (StorageVal.natV (current_count + 1))
            let cycle_total := current_total + amount
            let new_count := current_count + 1
            let events :=
              if new_count = group.member_count then
                [Event.ContributionMade group_id contributor amount cycle cycle_total now,
                 Event.CycleComplete group_id cycle]
              else
                [Event.ContributionMade group_id contributor amount cycle cycle_total now]
            (Except.ok (), σ3, events)

/-- The cycle deadline helper, translated from the source: false when the
group has not started, otherwise true exactly when current_time is strictly
past started_at + cycle_duration * (current_cycle + 1). -/
def is_cycle_deadline_passed (group : Group) (current_time : Nat) : Bool :=
  if group.started_at = 0 then
    false
  else
    let cycle_deadline := group.started_at + group.cycle_duration * (group.current_cycle + 1)
    decide (cycle_deadline < current_time)

/-- Digit conversion of the source helper: peel decimal digits with division
and remainder, most significant first. The fuel argument bounds the number of
digits; it is structural, so the function evaluates by reduction. -/
def decDigitsAux : Nat → Nat → List Char
  | 0, _ => []
  | fuel + 1, n =>
    if n < 10 then
      [Char.ofNat (48 + n)]
    else
      decDigitsAux fuel (n / 10) ++ [Char.ofNat (48 + n % 10)]

/-- The display helper from helpers.rs: the GROUP- prefix followed by the
decimal digits of the id. Twenty digits suffice for every u64 value. -/
def format_group_id (group_id : Nat) : String :=
  "GROUP-" ++ String.mk (decDigitsAux 20 group_id)

/-- Numeric value of a big-endian list of decimal digit characters. -/
def decimalValue (s : List Char) : Nat :=
  s.foldl (fun acc c => 10 * acc + (c.toNat - 48)) 0

/-- Modelled from the spec: the body of create_group is not among the
repository sources (only its signature); section 4.3 of the design fixes its
behavior: InvalidAmount when contribution_amount is not positive,
InvalidConfig when max_members is below one, otherwise allocate a fresh
unique id and persist the Group with current_cycle zero and the Forming
status (spelled Pending here). The fresh id comes from a persistent counter. -/
def create_group (σ : Storage) (admin : Address) (name : String)
    (contribution_amount : Int) (cycle_duration : Nat) (max_members : Nat) :
    Except StellarSaveError Nat × Storage :=
  if contribution_amount ≤ 0 then
    (Except.error StellarSaveError.InvalidAmount, σ)
  else if max_members < 1 then
    (Except.error StellarSaveError.InvalidConfig, σ)
  else
    let gid := (getNextGroupId σ).getD 0
    let group : Group :=
      { admin := admin, name := name, contribution_amount := contribution_amount,
        cycle_duration := cycle_duration, max_members := max_members,
        member_count := 0, current_cycle := 0, started_at := 0 }
    let σ1 := σ.set (StorageKey.groupData gid) (StorageVal.groupV group)
    let σ2 := σ1.set (StorageKey.groupStatus gid) (StorageVal.statusV GroupStatus.Pending)
    let σ3 := σ2.set StorageKey.nextGroupId (StorageVal.natV (gid + 1))
    (Except.ok gid, σ3)

/-- The is_group_active query, translated from the source: GroupNotFound when
the group record is absent, otherwise a boolean that is true exactly when the
status is Active and the member count lies between one and max_members. -/
def is_group_active (σ : Storage) (group_id : Nat) : Except StellarSaveError Bool :=
  match getGroup σ group_id with
  | none => Except.error StellarSaveError.GroupNotFound
  | some g =>
    let status := (getStatus σ group_id).getD GroupStatus.Pending
    Except.ok (decide (status = GroupStatus.Active) &&
               decide (1 ≤ g.member_count) && decide (g.member_count ≤ g.max_members))

/-- One contribute call viewed as a storage transformer. -/
def contribStep (group_id : Nat) (σ : Storage) (call : Address × Nat) : Storage :=
  (contribute σ group_id call.1 call.2).2.1

/-- Run a sequence of contribute calls (contributor, timestamp) in order. -/
def runCalls (group_id : Nat) (σ : Storage) (calls : List (Address × Nat)) : Storage :=
  calls.foldl (contribStep group_id) σ

/-- The contributors of the calls of a sequence that the contract accepts,
in order. -/
def acceptedCalls (group_id : Nat) (σ : Storage) : List (Address × Nat) → List Address
  | [] => []
  | call :: rest =>
    match (contribute σ group_id call.1 call.2).1 with
    | Except.ok _ =>
        call.1 :: acceptedCalls group_id ((contribute σ group_id call.1 call.2).2.1) rest
    | Except.error _ =>
        acceptedCalls group_id ((contribute σ group_id call.1 call.2).2.1) rest

/-- A concrete active group used to instantiate the theorems. -/
def gW : Group :=
  { admin := "admin", name := "g", contribution_amount := 100,
    cycle_duration := 60, max_members := 3, member_count := 2,
    current_cycle := 0, started_at := 10 }

/-- A concrete store: group 1 is gW, Active, with members alice and bob. -/
def σW : Storage := fun k =>
  match k with
  | StorageKey.groupData 1 => some (StorageVal.groupV gW)
  | StorageKey.groupStatus 1 => some (StorageVal.statusV GroupStatus.Active)
  | StorageKey.memberProfile 1 "alice" => some StorageVal.memberV
  | StorageKey.memberProfile 1 "bob" => some StorageVal.memberV
  | _ => none

/-- An activated group in its second cycle (current_cycle = 1). -/
def gSecondCycle : Group :=
  { admin := "admin", name := "g", contribution_amount := 100,
    cycle_duration := 100, max_members := 3, member_count := 3,
    current_cycle := 1, started_at := 1000 }

/-- The empty store of a fresh deployment. -/
def σEmpty : Storage := fun _ => none

/-- The store produced by the success branch of contribute: the record write,
the total write and the count write, in source order. -/
def successStore (σ : Storage) (gid : Nat) (c : Address) (t : Nat) (g : Group) : Storage :=
  ((σ.set (StorageKey.contributionIndividual gid g.current_cycle c)
      (StorageVal.contribV
        { contributor := c, group_id := gid, cycle := g.current_cycle,
          amount := g.contribution_amount, contributed_at := t })).set
    (StorageKey.contributionCycleTotal gid g.current_cycle)
    (StorageVal.intV ((getCycleTotal σ gid g.current_cycle).getD 0 + g.contribution_amount))).set
  (StorageKey.contributionCycleCount gid g.current_cycle)
  (StorageVal.natV ((getCycleCount σ gid g.current_cycle).getD 0 + 1))

/-- The events published by the success branch of contribute. -/
def successEvents (σ : Storage) (gid : Nat) (c : Address) (t : Nat) (g : Group) : List Event :=
  if (getCycleCount σ gid g.current_cycle).getD 0 + 1 = g.member_count then
    [Event.ContributionMade gid c g.contribution_amount g.current_cycle
       ((getCycleTotal σ gid g.current_cycle).getD 0 + g.contribution_amount) t,
     Event.CycleComplete gid g.current_cycle]
  else
    [Event.ContributionMade gid c g.contribution_amount g.current_cycle
       ((getCycleTotal σ gid g.current_cycle).getD 0 + g.contribution_amount) t]

theorem set_apply (σ : Storage) (k : StorageKey) (v : StorageVal) (q : StorageKey) :
    σ.set k v q = if q = k then some v else σ q := rfl

theorem set_apply_same (σ : Storage) (k : StorageKey) (v : StorageVal) :
    σ.set k v k = some v := by
  unfold Storage.set
  rw [if_pos rfl]

theorem set_apply_ne (σ : Storage) (k : StorageKey) (v : StorageVal) (q : StorageKey)
    (h : q ≠ k) : σ.set k v q = σ q := by
  unfold Storage.set
  rw [if_neg h]

theorem getGroup_set_ne (σ : Storage) (k : StorageKey) (v : StorageVal) (gid : Nat)
    (h : StorageKey.groupData gid ≠ k) : getGroup (σ.set k v) gid = getGroup σ gid := by
  unfold getGroup
  rw [set_apply_ne σ k v _ h]

theorem getStatus_set_ne (σ : Storage) (k : StorageKey) (v : StorageVal) (gid : Nat)
    (h : StorageKey.groupStatus gid ≠ k) : getStatus (σ.set k v) gid = getStatus σ gid := by
  unfold getStatus
  rw [set_apply_ne σ k v _ h]

theorem getCycleTotal_set_ne (σ : Storage) (k : StorageKey) (v : StorageVal) (gid cy : Nat)
    (h : StorageKey.contributionCycleTotal gid cy ≠ k) :
    getCycleTotal (σ.set k v) gid cy = getCycleTotal σ gid cy := by
  unfold getCycleTotal
  rw [set_apply_ne σ k v _ h]

theorem getCycleCount_set_ne (σ : Storage) (k : StorageKey) (v : StorageVal) (gid cy : Nat)
    (h : StorageKey.contributionCycleCount gid cy ≠ k) :
    getCycleCount (σ.set k v) gid cy = getCycleCount σ gid cy := by
  unfold getCycleCount
  rw [set_apply_ne σ k v _ h]

theorem getContribution_set_ne (σ : Storage) (k : StorageKey) (v : StorageVal)
    (gid cy : Nat) (a : Address)
    (h : StorageKey.contributionIndividual gid cy a ≠ k) :
    getContribution (σ.set k v) gid cy a = getContribution σ gid cy a := by
  unfold getContribution
  rw [set_apply_ne σ k v _ h]

theorem contribute_not_member (σ : Storage) (gid : Nat) (c : Address) (t : Nat)
    (h : (σ (StorageKey.memberProfile gid c)).isSome = false) :
    contribute σ gid c t = (Except.error StellarSaveError.NotMember, σ, []) := by
  unfold contribute
  rw [if_pos h]

theorem contribute_group_not_found (σ : Storage) (gid : Nat) (c : Address) (t : Nat)
    (h1 : (σ (StorageKey.memberProfile gid c)).isSome = true)
    (h2 : getGroup σ gid = none) :
    contribute σ gid c t = (Except.error StellarSaveError.GroupNotFound, σ, []) := by
  unfold contribute
  rw [if_neg (by simp [h1]), h2]

theorem contribute_invalid_state (σ : Storage) (gid : Nat) (c : Address) (t : Nat) (g : Group)
    (h1 : (σ (StorageKey.memberProfile gid c)).isSome = true)
    (h2 : getGroup σ gid = some g)
    (h3 : ((getStatus σ gid).getD GroupStatus.Pending).accepts_contributions = false) :
    contribute σ gid c t = (Except.error StellarSaveError.InvalidState, σ, []) := by
  unfold contribute
  rw [if_neg (by simp [h1]), h2]
  simp [h3]

theorem contribute_invalid_amount (σ : Storage) (gid : Nat) (c : Address) (t : Nat) (g : Group)
    (h1 : (σ (StorageKey.memberProfile gid c)).isSome = true)
    (h2 : getGroup σ gid = some g)
    (h3 : ((getStatus σ gid).getD GroupStatus.Pending).accepts_contributions = true)
    (h4 : g.contribution_amount ≤ 0) :
    contribute σ gid c t = (Except.error StellarSaveError.InvalidAmount, σ, []) := by
  unfold contribute
  rw [if_neg (by simp [h1]), h2]
  simp [h3, h4]

theorem contribute_already (σ : Storage) (gid : Nat) (c : Address) (t : Nat) (g : Group)
    (h1 : (σ (StorageKey.memberProfile gid c)).isSome = true)
    (h2 : getGroup σ gid = some g)
    (h3 : ((getStatus σ gid).getD GroupStatus.Pending).accepts_contributions = true)
    (h4 : 0 < g.contribution_amount)
    (h5 : (σ (StorageKey.contributionIndividual gid g.current_cycle c)).isSome = true) :
    contribute σ gid c t = (Except.error StellarSaveError.AlreadyContributed, σ, []) := by
  unfold contribute
  rw [if_neg (by simp [h1]), h2]
  simp [h3, h5, not_le.mpr h4]

theorem contribute_success (σ : Storage) (gid : Nat) (c : Address) (t : Nat) (g : Group)
    (h1 : (σ (StorageKey.memberProfile gid c)).isSome = true)
    (h2 : getGroup σ gid = some g)
    (h3 : ((getStatus σ gid).getD GroupStatus.Pending).accepts_contributions = true)
    (h4 : 0 < g.contribution_amount)
    (h5 : (σ (StorageKey.contributionIndividual gid g.current_cycle c)).isSome = false) :
    contribute σ gid c t =
      (Except.ok (), successStore σ gid c t g, successEvents σ gid c t g) := by
  unfold contribute successStore successEvents
  rw [if_neg (by simp [h1]), h2]
  simp [h3, h5, not_le.mpr h4, getCycleTotal_set_ne, getCycleCount_set_ne]

theorem contribute_cases (σ : Storage) (gid : Nat) (c : Address) (t : Nat) :
    (∃ e, contribute σ gid c t = (Except.error e, σ, [])) ∨
    (∃ g, getGroup σ gid = some g ∧
      (σ (StorageKey.memberProfile gid c)).isSome = true ∧
      ((getStatus σ gid).getD GroupStatus.Pending).accepts_contributions = true ∧
      0 < g.contribution_amount ∧
      (σ (StorageKey.contributionIndividual gid g.current_cycle c)).isSome = false ∧
      contribute σ gid c t = (Except.ok (), successStore σ gid c t g, successEvents σ gid c t g)) := by
  cases hmem : (σ (StorageKey.memberProfile gid c)).isSome with
  | false => exact Or.inl ⟨_, contribute_not_member σ gid c t hmem⟩
  | true =>
    cases hg : getGroup σ gid with
    | none => exact Or.inl ⟨_, contribute_group_not_found σ gid c t hmem hg⟩
    | some g =>
      cases hst : ((getStatus σ gid).getD GroupStatus.Pending).accepts_contributions with
      | false => exact Or.inl ⟨_, contribute_invalid_state σ gid c t g hmem hg hst⟩
      | true =>
        by_cases hamt : g.contribution_amount ≤ 0
        · exact Or.inl ⟨_, contribute_invalid_amount σ gid c t g hmem hg hst hamt⟩
        · cases hrec : (σ (StorageKey.contributionIndividual gid g.current_cycle c)).isSome with
          | true =>
            exact Or.inl ⟨_, contribute_already σ gid c t g hmem hg hst (not_le.mp hamt) hrec⟩
          | false =>
            exact Or.inr ⟨g, rfl, rfl, rfl, not_le.mp hamt, hrec,
              contribute_success σ gid c t g hmem hg hst (not_le.mp hamt) hrec⟩

theorem successStore_apply_ne (σ : Storage) (gid : Nat) (c : Address) (t : Nat) (g : Group)
    (k : StorageKey)
    (h1 : k ≠ StorageKey.contributionIndividual gid g.current_cycle c)
    (h2 : k ≠ StorageKey.contributionCycleTotal gid g.current_cycle)
    (h3 : k ≠ StorageKey.contributionCycleCount gid g.current_cycle) :
    successStore σ gid c t g k = σ k := by
  unfold successStore
  rw [set_apply_ne _ _ _ _ h3, set_apply_ne _ _ _ _ h2, set_apply_ne _ _ _ _ h1]

theorem successStore_getGroup (σ : Storage) (gid : Nat) (c : Address) (t : Nat) (g : Group)
    (gid2 : Nat) : getGroup (successStore σ gid c t g) gid2 = getGroup σ gid2 := by
  unfold getGroup
  rw [successStore_apply_ne _ _ _ _ _ _ (by simp) (by simp) (by simp)]

theorem successStore_getStatus (σ : Storage) (gid : Nat) (c : Address) (t : Nat) (g : Group)
    (gid2 : Nat) : getStatus (successStore σ gid c t g) gid2 = getStatus σ gid2 := by
  unfold getStatus
  rw [successStore_apply_ne _ _ _ _ _ _ (by simp) (by simp) (by simp)]

theorem successStore_member (σ : Storage) (gid : Nat) (c : Address) (t : Nat) (g : Group)
    (gid2 : Nat) (a : Address) :
    successStore σ gid c t g (StorageKey.memberProfile gid2 a) =
      σ (StorageKey.memberProfile gid2 a) := by
  rw [successStore_apply_ne _ _ _ _ _ _ (by simp) (by simp) (by simp)]

theorem successStore_record (σ : Storage) (gid : Nat) (c : Address) (t : Nat) (g : Group) :
    successStore σ gid c t g (StorageKey.contributionIndividual gid g.current_cycle c) =
      some (StorageVal.contribV
        { contributor := c, group_id := gid, cycle := g.current_cycle,
          amount := g.contribution_amount, contributed_at := t }) := by
  unfold successStore
  rw [set_apply_ne _ _ _ _ (by simp), set_apply_ne _ _ _ _ (by simp), set_apply_same]

theorem successStore_getContribution (σ : Storage) (gid : Nat) (c : Address) (t : Nat)
    (g : Group) :
    getContribution (successStore σ gid c t g) gid g.current_cycle c =
      some { contributor := c, group_id := gid, cycle := g.current_cycle,
             amount := g.contribution_amount, contributed_at := t } := by
  unfold getContribution
  rw [successStore_record]

theorem successStore_getContribution_ne (σ : Storage) (gid : Nat) (c : Address) (t : Nat)
    (g : Group) (a : Address) (h : a ≠ c) :
    getContribution (successStore σ gid c t g) gid g.current_cycle a =
      getContribution σ gid g.current_cycle a := by
  unfold getContribution
  rw [successStore_apply_ne _ _ _ _ _ _ (by simp [h]) (by simp) (by simp)]

theorem successStore_getCycleTotal (σ : Storage) (gid : Nat) (c : Address) (t : Nat)
    (g : Group) :
    getCycleTotal (successStore σ gid c t g) gid g.current_cycle =
      some ((getCycleTotal σ gid g.current_cycle).getD 0 + g.contribution_amount) := by
  unfold getCycleTotal successStore
  rw [set_apply_ne _ _ _ _ (by simp), set_apply_same]
  rfl

theorem successStore_getCycleCount (σ : Storage) (gid : Nat) (c : Address) (t : Nat)
    (g : Group) :
    getCycleCount (successStore σ gid c t g) gid g.current_cycle =
      some ((getCycleCount σ gid g.current_cycle).getD 0 + 1) := by
  unfold getCycleCount successStore
  rw [set_apply_same]
  rfl

theorem successEvents_cycleComplete_mem (σ : Storage) (gid : Nat) (c : Address) (t : Nat)
    (g : Group) :
    Event.CycleComplete gid g.current_cycle ∈ successEvents σ gid c t g ↔
      (getCycleCount σ gid g.current_cycle).getD 0 + 1 = g.member_count := by
  by_cases h : (getCycleCount σ gid g.current_cycle).getD 0 + 1 = g.member_count
  · simp [successEvents, h]
  · simp [successEvents, h]

theorem successEvents_nodup (σ : Storage) (gid : Nat) (c : Address) (t : Nat) (g : Group) :
    (successEvents σ gid c t g).Nodup := by
  by_cases h : (getCycleCount σ gid g.current_cycle).getD 0 + 1 = g.member_count
  · simp [successEvents, h]
  · simp [successEvents, h]

/-- C1: every contribute call that returns an error leaves the whole store
unchanged; an existing ContributionRecord is never overwritten; and after a
successful contribute, a second call for the same group and contributor fails
AlreadyContributed and leaves the store unchanged, so at most one record ever
exists per (group_id, cycle, contributor). -/
theorem contribute_error_keeps_storage (σ : Storage) (gid : Nat) (c : Address) (t : Nat) :
    (∀ e, (contribute σ gid c t).1 = Except.error e → (contribute σ gid c t).2.1 = σ) ∧
    (∀ gid2 cy a v, σ (StorageKey.contributionIndividual gid2 cy a) = some v →
      (contribute σ gid c t).2.1 (StorageKey.contributionIndividual gid2 cy a) = some v) ∧
    (∀ t2, (contribute σ gid c t).1 = Except.ok () →
      contribute ((contribute σ gid c t).2.1) gid c t2 =
        (Except.error StellarSaveError.AlreadyContributed, (contribute σ gid c t).2.1, [])) := by
  rcases contribute_cases σ gid c t with ⟨e, he⟩ | ⟨g, hg, hmem, hst, hamt, hrec, heq⟩
  · refine ⟨?_, ?_, ?_⟩
    · intro e2 h
      rw [he]
    · intro gid2 cy a v hv
      rw [he]
      exact hv
    · intro t2 h
      rw [he] at h
      simp at h
  · refine ⟨?_, ?_, ?_⟩
    · intro e2 h
      rw [heq] at h
      simp at h
    · intro gid2 cy a v hv
      rw [heq]
      by_cases hk : StorageKey.contributionIndividual gid2 cy a =
          StorageKey.contributionIndividual gid g.current_cycle c
      · rw [hk] at hv
        rw [hv] at hrec
        simp at hrec
      · show successStore σ gid c t g (StorageKey.contributionIndividual gid2 cy a) = some v
        rw [successStore_apply_ne _ _ _ _ _ _ hk (by simp) (by simp)]
        exact hv
    · intro t2 h
      rw [heq]
      show contribute (successStore σ gid c t g) gid c t2 =
        (Except.error StellarSaveError.AlreadyContributed, successStore σ gid c t g, [])
      refine contribute_already _ _ _ _ g ?_ ?_ ?_ hamt ?_
      · rw [successStore_member]
        exact hmem
      · rw [successStore_getGroup]
        exact hg
      · rw [successStore_getStatus]
        exact hst
      · rw [successStore_record]
        rfl

/-- C1 witness: in the concrete store, a second contribution by alice in the
same cycle fails AlreadyContributed and leaves the store unchanged. -/
theorem contribute_error_keeps_storage_witness :
    contribute ((contribute σW 1 "alice" 5).2.1) 1 "alice" 7 =
      (Except.error StellarSaveError.AlreadyContributed, (contribute σW 1 "alice" 5).2.1, []) :=
  (contribute_error_keeps_storage σW 1 "alice" 5).2.2 7 rfl

/-- C2: contribute fails NotMember when no member profile exists, a check made
before the group is loaded (it fires even when the group record is also
absent); fails GroupNotFound when the group is absent; the default substituted
for an absent status record is the Forming-state variant (spelled Pending),
which does not accept contributions; and the call fails InvalidState whenever
the status read with that default does not accept contributions. -/
theorem contribute_precheck_order (σ : Storage) (gid : Nat) (c : Address) (t : Nat) :
    ((σ (StorageKey.memberProfile gid c)).isSome = false →
      (contribute σ gid c t).1 = Except.error StellarSaveError.NotMember) ∧
    ((σ (StorageKey.memberProfile gid c)).isSome = true → getGroup σ gid = none →
      (contribute σ gid c t).1 = Except.error StellarSaveError.GroupNotFound) ∧
    GroupStatus.accepts_contributions GroupStatus.Pending = false ∧
    (∀ g, (σ (StorageKey.memberProfile gid c)).isSome = true → getGroup σ gid = some g →
      ((getStatus σ gid).getD GroupStatus.Pending).accepts_contributions = false →
      (contribute σ gid c t).1 = Except.error StellarSaveError.InvalidState) := by
  refine ⟨fun h => ?_, fun h1 h2 => ?_, rfl, fun g h1 h2 h3 => ?_⟩
  · rw [contribute_not_member σ gid c t h]
  · rw [contribute_group_not_found σ gid c t h1 h2]
  · rw [contribute_invalid_state σ gid c t g h1 h2 h3]

/-- C2 witness: a non-member contributing to a non-existent group gets
NotMember, showing the member check precedes the group load. -/
theorem contribute_precheck_order_witness :
    (contribute σW 2 "dave" 5).1 = Except.error StellarSaveError.NotMember :=
  (contribute_precheck_order σW 2 "dave" 5).1 (by decide)

/-- C3: a successful contribute emits CycleComplete exactly when the updated
cycle count equals the member count of the group; rejected calls emit nothing;
once the stored count has reached the member count the event cannot fire again
in that cycle; the group record (hence current_cycle) is never modified; and
no event is emitted twice in one call. -/
theorem cycleComplete_emission_spec (σ : Storage) (gid : Nat) (c : Address) (t : Nat) :
    (∀ g, getGroup σ gid = some g → (contribute σ gid c t).1 = Except.ok () →
      (Event.CycleComplete gid g.current_cycle ∈ (contribute σ gid c t).2.2 ↔
        getCycleCount ((contribute σ gid c t).2.1) gid g.current_cycle =
          some g.member_count)) ∧
    (∀ e, (contribute σ gid c t).1 = Except.error e → (contribute σ gid c t).2.2 = []) ∧
    (∀ g, getGroup σ gid = some g →
      g.member_count ≤ (getCycleCount σ gid g.current_cycle).getD 0 →
      Event.CycleComplete gid g.current_cycle ∉ (contribute σ gid c t).2.2) ∧
    (∀ gid2, getGroup ((contribute σ gid c t).2.1) gid2 = getGroup σ gid2) ∧
    (∀ ev, ((contribute σ gid c t).2.2).count ev ≤ 1) := by
  rcases contribute_cases σ gid c t with ⟨e, he⟩ | ⟨g2, hg2, hmem, hst, hamt, hrec, heq⟩
  · rw [he]
    refine ⟨?_, ?_, ?_, ?_, ?_⟩
    · intro g hg hok
      simp at hok
    · intro e2 h
      rfl
    · intro g hg hcount
      simp
    · intro gid2
      rfl
    · intro ev
      simp
  · rw [heq]
    refine ⟨?_, ?_, ?_, ?_, ?_⟩
    · intro g hg hok
      have hgg : g = g2 := Option.some.inj (hg.symm.trans hg2)
      subst hgg
      show Event.CycleComplete gid g.current_cycle ∈ successEvents σ gid c t g ↔
        getCycleCount (successStore σ gid c t g) gid g.current_cycle = some g.member_count
      rw [successEvents_cycleComplete_mem, successStore_getCycleCount]
      simp
    · intro e2 h
      simp at h
    · intro g hg hcount
      have hgg : g = g2 := Option.some.inj (hg.symm.trans hg2)
      subst hgg
      show Event.CycleComplete gid g.current_cycle ∉ successEvents σ gid c t g
      rw [successEvents_cycleComplete_mem]
      omega
    · intro gid2
      exact successStore_getGroup σ gid c t g2 gid2
    · intro ev
      exact List.nodup_iff_count_le_one.mp (successEvents_nodup σ gid c t g2) ev

/-- C3 witness: bob is the second of two members to contribute, so his call
emits CycleComplete for cycle zero of group one. -/
theorem cycleComplete_emission_spec_witness :
    Event.CycleComplete 1 0 ∈ (contribute ((contribute σW 1 "alice" 5).2.1) 1 "bob" 6).2.2 :=
  ((cycleComplete_emission_spec ((contribute σW 1 "alice" 5).2.1) 1 "bob" 6).1
    gW rfl rfl).mpr (by decide)

/-- C5: the deadline helper returns false for a group that has not started;
for a started group it returns true exactly when the current time is strictly
past started_at + cycle_duration * (current_cycle + 1), and it returns false
at the boundary instant itself. -/
theorem deadline_passed_spec (g : Group) (t : Nat) :
    (g.started_at = 0 → is_cycle_deadline_passed g t = false) ∧
    (g.started_at ≠ 0 →
      ((is_cycle_deadline_passed g t = true ↔
          g.started_at + g.cycle_duration * (g.current_cycle + 1) < t) ∧
       (t = g.started_at + g.cycle_duration * (g.current_cycle + 1) →
          is_cycle_deadline_passed g t = false))) := by
  constructor
  · intro h
    simp [is_cycle_deadline_passed, h]
  · intro h
    constructor
    · simp [is_cycle_deadline_passed, h]
    · intro ht
      simp [is_cycle_deadline_passed, h, ht]

/-- C5 witness: for the concrete group started at 10 with duration 60 and
cycle 0, time 71 is past the deadline. -/
theorem deadline_passed_spec_witness : is_cycle_deadline_passed gW 71 = true :=
  ((deadline_passed_spec gW 71).2 (by decide)).1.mpr (by decide)

/-- C6 counterexample: the claim asserts that for every activated group the
instant started_at + cycle_duration + 1 is past the deadline, but for an
activated group in its second cycle (current_cycle = 1, duration 100) the
deadline is started_at + 200, and started_at + 101 is not past it. -/
theorem deadline_boundary_counterexample :
    gSecondCycle.started_at ≠ 0 ∧
    is_cycle_deadline_passed gSecondCycle
      (gSecondCycle.started_at + gSecondCycle.cycle_duration + 1) = false := by
  decide

/-- C6 amended: for every activated group the instant started_at +
cycle_duration is not past the deadline; and for every activated group still
in its first cycle (current_cycle = 0), started_at + cycle_duration + 1 is
past it. -/
theorem deadline_boundary_amended (g : Group) (h : g.started_at ≠ 0) :
    is_cycle_deadline_passed g (g.started_at + g.cycle_duration) = false ∧
    (g.current_cycle = 0 →
      is_cycle_deadline_passed g (g.started_at + g.cycle_duration + 1) = true) := by
  constructor
  · simp only [is_cycle_deadline_passed, if_neg h, decide_eq_false_iff_not, not_lt]
    have hd : g.cycle_duration ≤ g.cycle_duration * (g.current_cycle + 1) :=
      Nat.le_mul_of_pos_right _ (Nat.succ_pos _)
    omega
  · intro hc
    simp only [is_cycle_deadline_passed, if_neg h, hc, Nat.mul_one, decide_eq_true_eq]
    omega

/-- C6 amended witness: both boundary facts for the concrete first-cycle
group. -/
theorem deadline_boundary_amended_witness :
    is_cycle_deadline_passed gW (gW.started_at + gW.cycle_duration) = false ∧
    is_cycle_deadline_passed gW (gW.started_at + gW.cycle_duration + 1) = true :=
  ⟨(deadline_boundary_amended gW (by decide)).1,
   (deadline_boundary_amended gW (by decide)).2 (by decide)⟩

/-- C8: is_group_active errors with GroupNotFound when no group record exists;
otherwise it returns ok true exactly when the status is Active and the member
count lies between one and max_members, and ok false (not an error) in every
other case. -/
theorem is_group_active_spec (σ : Storage) (gid : Nat) :
    (getGroup σ gid = none →
      is_group_active σ gid = Except.error StellarSaveError.GroupNotFound) ∧
    (∀ g, getGroup σ gid = some g →
      ((is_group_active σ gid = Except.ok true ↔
         ((getStatus σ gid).getD GroupStatus.Pending = GroupStatus.Active ∧
          1 ≤ g.member_count ∧ g.member_count ≤ g.max_members)) ∧
       (¬((getStatus σ gid).getD GroupStatus.Pending = GroupStatus.Active ∧
          1 ≤ g.member_count ∧ g.member_count ≤ g.max_members) →
         is_group_active σ gid = Except.ok false))) := by
  constructor
  · intro h
    simp [is_group_active, h]
  · intro g hg
    constructor
    · simp [is_group_active, hg, and_assoc]
    · intro hn
      by_cases h1 : (getStatus σ gid).getD GroupStatus.Pending = GroupStatus.Active
      · by_cases h2 : 1 ≤ g.member_count
        · by_cases h3 : g.member_count ≤ g.max_members
          · exact absurd ⟨h1, h2, h3⟩ hn
          · simp [is_group_active, hg, h3]
        · simp [is_group_active, hg, h2]
      · simp [is_group_active, hg, h1]

/-- C8 witness: the concrete group one is Active with two of at most three
members, so the query returns ok true. -/
theorem is_group_active_spec_witness : is_group_active σW 1 = Except.ok true :=
  ((is_group_active_spec σW 1).2 gW rfl).1.mpr ⟨by decide, by decide, by decide⟩

/-- C10: a successful contribute writes only the three keys of the current
cycle (the contribution record of the caller, the cycle total and the cycle
count); every other key keeps its value, and in particular the group record,
every status record and every member profile are unchanged. -/
theorem contribute_frame_spec (σ : Storage) (gid : Nat) (c : Address) (t : Nat) (g : Group)
    (hg : getGroup σ gid = some g) (hok : (contribute σ gid c t).1 = Except.ok ()) :
    (∀ k, k ≠ StorageKey.contributionIndividual gid g.current_cycle c →
          k ≠ StorageKey.contributionCycleTotal gid g.current_cycle →
          k ≠ StorageKey.contributionCycleCount gid g.current_cycle →
          (contribute σ gid c t).2.1 k = σ k) ∧
    (∀ gid2, getGroup ((contribute σ gid c t).2.1) gid2 = getGroup σ gid2) ∧
    (∀ gid2, getStatus ((contribute σ gid c t).2.1) gid2 = getStatus σ gid2) ∧
    (∀ gid2 a, (contribute σ gid c t).2.1 (StorageKey.memberProfile gid2 a) =
       σ (StorageKey.memberProfile gid2 a)) := by
  rcases contribute_cases σ gid c t with ⟨e, he⟩ | ⟨g2, hg2, hmem, hst, hamt, hrec, heq⟩
  · rw [he] at hok
    simp at hok
  · have hgg : g2 = g := Option.some.inj (hg2.symm.trans hg)
    subst hgg
    rw [heq]
    refine ⟨?_, ?_, ?_, ?_⟩
    · intro k h1 h2 h3
      exact successStore_apply_ne σ gid c t g2 k h1 h2 h3
    · intro gid2
      exact successStore_getGroup σ gid c t g2 gid2
    · intro gid2
      exact successStore_getStatus σ gid c t g2 gid2
    · intro gid2 a
      exact successStore_member σ gid c t g2 gid2 a

/-- C10 witness: after a successful contribution the group record of the
concrete store is untouched. -/
theorem contribute_frame_spec_witness :
    getGroup ((contribute σW 1 "alice" 5).2.1) 1 = getGroup σW 1 :=
  (contribute_frame_spec σW 1 "alice" 5 gW rfl rfl).2.1 1

theorem create_group_ok (σ : Storage) (admin : Address) (name : String) (amt : Int)
    (dur mm : Nat) (h1 : 0 < amt) (h2 : 1 ≤ mm) :
    create_group σ admin name amt dur mm =
      (Except.ok ((getNextGroupId σ).getD 0),
       ((σ.set (StorageKey.groupData ((getNextGroupId σ).getD 0))
           (StorageVal.groupV
             { admin := admin, name := name, contribution_amount := amt,
               cycle_duration := dur, max_members := mm, member_count := 0,
               current_cycle := 0, started_at := 0 })).set
         (StorageKey.groupStatus ((getNextGroupId σ).getD 0))
         (StorageVal.statusV GroupStatus.Pending)).set
       StorageKey.nextGroupId
       (StorageVal.natV ((getNextGroupId σ).getD 0 + 1))) := by
  unfold create_group
  rw [if_neg (not_le.mpr h1), if_neg (not_lt.mpr h2)]

/-- C7: create_group rejects a non-positive contribution amount with
InvalidAmount and a zero max_members with InvalidConfig, leaving the store
unchanged; on any valid input it succeeds, persisting at a fresh id a Group
with current_cycle zero and the Forming-state status (spelled Pending), and
when every id at or above the allocation counter is unused, the allocated id
is unused and the same holds again afterwards, so allocated ids are unique. -/
theorem create_group_spec (σ : Storage) (admin : Address) (name : String) (amt : Int)
    (dur mm : Nat) :
    (amt ≤ 0 → create_group σ admin name amt dur mm =
       (Except.error StellarSaveError.InvalidAmount, σ)) ∧
    (0 < amt → mm < 1 → create_group σ admin name amt dur mm =
       (Except.error StellarSaveError.InvalidConfig, σ)) ∧
    (0 < amt → 1 ≤ mm →
      ∃ gid σ2, create_group σ admin name amt dur mm = (Except.ok gid, σ2) ∧
        getGroup σ2 gid = some
          { admin := admin, name := name, contribution_amount := amt,
            cycle_duration := dur, max_members := mm, member_count := 0,
            current_cycle := 0, started_at := 0 } ∧
        getStatus σ2 gid = some GroupStatus.Pending ∧
        getNextGroupId σ2 = some (gid + 1) ∧
        ((∀ j, (getNextGroupId σ).getD 0 ≤ j → getGroup σ j = none) →
          (getGroup σ gid = none ∧
           ∀ j, (getNextGroupId σ2).getD 0 ≤ j → getGroup σ2 j = none))) := by
  refine ⟨fun h => ?_, fun h1 h2 => ?_, fun h1 h2 => ?_⟩
  · unfold create_group
    rw [if_pos h]
  · unfold create_group
    rw [if_neg (not_le.mpr h1), if_pos h2]
  · refine ⟨(getNextGroupId σ).getD 0, _, create_group_ok σ admin name amt dur mm h1 h2,
      ?_, ?_, ?_, ?_⟩
    · simp [getGroup, Storage.set]
    · simp [getStatus, Storage.set]
    · simp [getNextGroupId, Storage.set]
    · intro hinv
      refine ⟨hinv _ le_rfl, ?_⟩
      intro j hj
      have hj1 : (getNextGroupId σ).getD 0 + 1 ≤ j := by
        simpa [getNextGroupId, Storage.set] using hj
      have hne : j ≠ (getNextGroupId σ).getD 0 := by omega
      have hfr : getGroup σ j = none := hinv j (by omega)
      rw [getGroup_set_ne _ _ _ _ (by simp), getGroup_set_ne _ _ _ _ (by simp),
          getGroup_set_ne _ _ _ _ (by simp [hne])]
      exact hfr

/-- C7 witness: creating a group on the empty store succeeds with a Forming
status and cycle zero. -/
theorem create_group_spec_witness :
    ∃ gid σ2, create_group σEmpty "admin" "grp" 100 60 3 = (Except.ok gid, σ2) ∧
      getGroup σ2 gid = some
        { admin := "admin", name := "grp", contribution_amount := 100,
          cycle_duration := 60, max_members := 3, member_count := 0,
          current_cycle := 0, started_at := 0 } ∧
      getStatus σ2 gid = some GroupStatus.Pending ∧
      getNextGroupId σ2 = some (gid + 1) ∧
      ((∀ j, (getNextGroupId σEmpty).getD 0 ≤ j → getGroup σEmpty j = none) →
        (getGroup σEmpty gid = none ∧
         ∀ j, (getNextGroupId σ2).getD 0 ≤ j → getGroup σ2 j = none)) :=
  (create_group_spec σEmpty "admin" "grp" 100 60 3).2.2 (by decide) (by decide)

theorem digitChar_prop (d : Nat) (h : d < 10) :
    (Char.ofNat (48 + d)).isDigit = true ∧ (Char.ofNat (48 + d)).toNat = 48 + d := by
  interval_cases d <;> exact ⟨rfl, rfl⟩

theorem decDigitsAux_single (fuel n : Nat) (h : n < 10) :
    decDigitsAux (fuel + 1) n = [Char.ofNat (48 + n)] := by
  unfold decDigitsAux
  rw [if_pos h]

theorem decDigitsAux_step (fuel n : Nat) (h : ¬ n < 10) :
    decDigitsAux (fuel + 1) n =
      decDigitsAux fuel (n / 10) ++ [Char.ofNat (48 + n % 10)] := by
  conv_lhs => rw [decDigitsAux]
  rw [if_neg h]

theorem decimalValue_append_one (l : List Char) (c : Char) :
    decimalValue (l ++ [c]) = 10 * decimalValue l + (c.toNat - 48) := by
  unfold decimalValue
  rw [List.foldl_append]
  rfl

theorem decDigits_single_spec (fuel n : Nat) (h : n < 10) :
    decDigitsAux (fuel + 1) n ≠ [] ∧
    (∀ c ∈ decDigitsAux (fuel + 1) n, c.isDigit = true) ∧
    decimalValue (decDigitsAux (fuel + 1) n) = n ∧
    (n ≠ 0 → (decDigitsAux (fuel + 1) n).head? ≠ some (Char.ofNat 48)) := by
  rw [decDigitsAux_single fuel n h]
  refine ⟨by simp, ?_, ?_, ?_⟩
  · intro c hc
    rw [List.mem_singleton] at hc
    subst hc
    exact (digitChar_prop n h).1
  · have ht := (digitChar_prop n h).2
    simp only [decimalValue, List.foldl_cons, List.foldl_nil, ht]
    omega
  · intro h0
    simp only [List.head?_cons, Ne, Option.some.injEq]
    intro hc
    have htn := congrArg Char.toNat hc
    rw [(digitChar_prop n h).2] at htn
    have h48 : (Char.ofNat 48).toNat = 48 := rfl
    rw [h48] at htn
    omega

theorem decDigitsAux_spec (fuel : Nat) : ∀ n, n < 10 ^ (fuel + 1) →
    decDigitsAux (fuel + 1) n ≠ [] ∧
    (∀ c ∈ decDigitsAux (fuel + 1) n, c.isDigit = true) ∧
    decimalValue (decDigitsAux (fuel + 1) n) = n ∧
    (n ≠ 0 → (decDigitsAux (fuel + 1) n).head? ≠ some (Char.ofNat 48)) := by
  induction fuel with
  | zero =>
    intro n hn
    exact decDigits_single_spec 0 n (by simpa using hn)
  | succ fuel ih =>
    intro n hn
    by_cases h10 : n < 10
    · exact decDigits_single_spec (fuel + 1) n h10
    · rw [decDigitsAux_step (fuel + 1) n h10]
      have hdiv : n / 10 < 10 ^ (fuel + 1) := by
        rw [Nat.div_lt_iff_lt_mul (by norm_num)]
        calc n < 10 ^ (fuel + 1 + 1) := hn
          _ = 10 ^ (fuel + 1) * 10 := by ring
      obtain ⟨hne, hdig, hval, hhead⟩ := ih (n / 10) hdiv
      have hmod : n % 10 < 10 := Nat.mod_lt _ (by norm_num)
      refine ⟨by simp, ?_, ?_, ?_⟩
      · intro c hc
        rw [List.mem_append] at hc
        rcases hc with hc | hc
        · exact hdig c hc
        · rw [List.mem_singleton] at hc
          subst hc
          exact (digitChar_prop _ hmod).1
      · rw [decimalValue_append_one, hval, (digitChar_prop _ hmod).2]
        omega
      · intro h0
        have hp : n / 10 ≠ 0 := by omega
        cases hl : decDigitsAux (fuel + 1) (n / 10) with
        | nil => exact absurd hl hne
        | cons a as =>
          have hh := hhead hp
          rw [hl] at hh
          simpa using hh

/-- C9: for every u64 id, format_group_id yields the GROUP- prefix followed
by the decimal digits of id: a nonempty all-digit suffix with value id, whose
first character is not a zero digit unless id is zero, in which case the
suffix is exactly one zero digit; and the two boundary values evaluate as the
source tests record. -/
theorem format_group_id_spec :
    (∀ id : Nat, id < 2 ^ 64 →
      ∃ s : List Char, format_group_id id = "GROUP-" ++ String.mk s ∧ s ≠ [] ∧
        (∀ c ∈ s, c.isDigit = true) ∧ decimalValue s = id ∧
        (id ≠ 0 → s.head? ≠ some (Char.ofNat 48)) ∧
        (id = 0 → s = [Char.ofNat 48])) ∧
    format_group_id 0 = "GROUP-0" ∧
    format_group_id 18446744073709551615 = "GROUP-18446744073709551615" := by
  refine ⟨?_, by decide, by decide⟩
  intro id hid
  have hlt : id < 10 ^ 20 := lt_of_lt_of_le hid (by norm_num)
  obtain ⟨h1, h2, h3, h4⟩ := decDigitsAux_spec 19 id hlt
  refine ⟨decDigitsAux 20 id, rfl, h1, h2, h3, h4, ?_⟩
  intro h0
  subst h0
  decide

/-- C9 witness: the digit suffix of a concrete id. -/
theorem format_group_id_spec_witness :
    ∃ s : List Char, format_group_id 12345 = "GROUP-" ++ String.mk s ∧ s ≠ [] ∧
      (∀ c ∈ s, c.isDigit = true) ∧ decimalValue s = 12345 ∧
      (12345 ≠ 0 → s.head? ≠ some (Char.ofNat 48)) ∧
      (12345 = 0 → s = [Char.ofNat 48]) :=
  format_group_id_spec.1 12345 (by decide)

theorem runCalls_inv (gid : Nat) (g : Group) (calls : List (Address × Nat)) :
    ∀ (σ : Storage) (S : List Address),
      getGroup σ gid = some g →
      (getCycleTotal σ gid g.current_cycle).getD 0 =
        (S.length : Int) * g.contribution_amount →
      (getCycleCount σ gid g.current_cycle).getD 0 = S.length →
      (∀ a, a ∈ S → ∃ r, getContribution σ gid g.current_cycle a = some r ∧
         r.amount = g.contribution_amount) →
      (∀ a, a ∉ S → σ (StorageKey.contributionIndividual gid g.current_cycle a) = none) →
      S.Nodup →
      (getGroup (runCalls gid σ calls) gid = some g ∧
       (getCycleTotal (runCalls gid σ calls) gid g.current_cycle).getD 0 =
         ((S ++ acceptedCalls gid σ calls).length : Int) * g.contribution_amount ∧
       (getCycleCount (runCalls gid σ calls) gid g.current_cycle).getD 0 =
         (S ++ acceptedCalls gid σ calls).length ∧
       (∀ a, a ∈ S ++ acceptedCalls gid σ calls →
          ∃ r, getContribution (runCalls gid σ calls) gid g.current_cycle a = some r ∧
            r.amount = g.contribution_amount) ∧
       (∀ a, a ∉ S ++ acceptedCalls gid σ calls →
          (runCalls gid σ calls) (StorageKey.contributionIndividual gid g.current_cycle a) =
            none) ∧
       (S ++ acceptedCalls gid σ calls).Nodup) := by
  induction calls with
  | nil =>
    intro σ S h1 h2 h3 h4 h5 h6
    simp only [runCalls, List.foldl_nil, acceptedCalls, List.append_nil]
    exact ⟨h1, h2, h3, h4, h5, h6⟩
  | cons call rest ih =>
    obtain ⟨a, t⟩ := call
    intro σ S h1 h2 h3 h4 h5 h6
    rcases contribute_cases σ gid a t with ⟨e, he⟩ | ⟨g2, hg2, hmem, hst, hamt, hrec, heq⟩
    · have hstep : contribStep gid σ (a, t) = σ := by
        unfold contribStep
        rw [he]
      have hrun : runCalls gid σ ((a, t) :: rest) = runCalls gid σ rest := by
        unfold runCalls
        rw [List.foldl_cons]
        rw [show contribStep gid σ (a, t) = σ from hstep]
      have hacc : acceptedCalls gid σ ((a, t) :: rest) = acceptedCalls gid σ rest := by
        conv_lhs => rw [acceptedCalls]
        rw [he]
      rw [hrun, hacc]
      exact ih σ S h1 h2 h3 h4 h5 h6
    · have hgg : g2 = g := Option.some.inj (hg2.symm.trans h1)
      subst hgg
      have hstep : contribStep gid σ (a, t) = successStore σ gid a t g2 := by
        unfold contribStep
        rw [heq]
      have hrun : runCalls gid σ ((a, t) :: rest) =
          runCalls gid (successStore σ gid a t g2) rest := by
        unfold runCalls
        rw [List.foldl_cons]
        rw [show contribStep gid σ (a, t) = successStore σ gid a t g2 from hstep]
      have hacc : acceptedCalls gid σ ((a, t) :: rest) =
          a :: acceptedCalls gid (successStore σ gid a t g2) rest := by
        conv_lhs => rw [acceptedCalls]
        rw [heq]
      have ha_not : a ∉ S := by
        intro hmem2
        obtain ⟨r, hr, _⟩ := h4 a hmem2
        have hsome : (σ (StorageKey.contributionIndividual gid g2.current_cycle a)).isSome =
            true := by
          unfold getContribution at hr
          cases hσ : σ (StorageKey.contributionIndividual gid g2.current_cycle a) with
          | none =>
            rw [hσ] at hr
            cases hr
          | some v => simp [hσ]
        rw [hsome] at hrec
        cases hrec
      have i1 : getGroup (successStore σ gid a t g2) gid = some g2 := by
        rw [successStore_getGroup]
        exact h1
      have i2 : (getCycleTotal (successStore σ gid a t g2) gid g2.current_cycle).getD 0 =
          (((S ++ [a]).length : Nat) : Int) * g2.contribution_amount := by
        rw [successStore_getCycleTotal, Option.getD_some, h2]
        simp only [List.length_append, List.length_singleton]
        push_cast
        ring
      have i3 : (getCycleCount (successStore σ gid a t g2) gid g2.current_cycle).getD 0 =
          (S ++ [a]).length := by
        rw [successStore_getCycleCount, Option.getD_some, h3]
        simp
      have i4 : ∀ b, b ∈ S ++ [a] →
          ∃ r, getContribution (successStore σ gid a t g2) gid g2.current_cycle b = some r ∧
            r.amount = g2.contribution_amount := by
        intro b hb
        rw [List.mem_append, List.mem_singleton] at hb
        rcases hb with hb | hb
        · have hba : b ≠ a := by
            intro hx
            subst hx
            exact ha_not hb
          rw [successStore_getContribution_ne σ gid a t g2 b hba]
          exact h4 b hb
        · subst hb
          refine ⟨_, successStore_getContribution σ gid b t g2, rfl⟩
      have i5 : ∀ b, b ∉ S ++ [a] →
          (successStore σ gid a t g2)
            (StorageKey.contributionIndividual gid g2.current_cycle b) = none := by
        intro b hb
        rw [List.mem_append, List.mem_singleton] at hb
        push_neg at hb
        rw [successStore_apply_ne _ _ _ _ _ _ (by simp [hb.2]) (by simp) (by simp)]
        exact h5 b hb.1
      have i6 : (S ++ [a]).Nodup := by
        simp [List.nodup_append, h6, ha_not]
      have hres := ih (successStore σ gid a t g2) (S ++ [a]) i1 i2 i3 i4 i5 i6
      rw [hrun, hacc]
      rw [List.append_assoc, List.singleton_append] at hres
      exact hres

/-- C4: starting from a state with no contribution records and no aggregates
for the current cycle of the group, any sequence of contribute calls leaves
cycle_total equal to N times the fixed contribution amount and cycle_count
equal to N, where N is the number of accepted contributions; the records of
the cycle are exactly those of the accepted contributors, each of the fixed
amount, no contributor accepted twice, and cycle_total equals the sum of the
amounts of the records; moreover each accepted contribution updates both
aggregates exactly once, by read-modify-write with default zero. -/
theorem cycle_aggregates_spec (σ : Storage) (gid : Nat) (g : Group)
    (calls : List (Address × Nat))
    (hg : getGroup σ gid = some g)
    (htot : getCycleTotal σ gid g.current_cycle = none)
    (hcnt : getCycleCount σ gid g.current_cycle = none)
    (hrec : ∀ a, σ (StorageKey.contributionIndividual gid g.current_cycle a) = none) :
    ((getCycleTotal (runCalls gid σ calls) gid g.current_cycle).getD 0 =
       ((acceptedCalls gid σ calls).length : Int) * g.contribution_amount ∧
     (getCycleCount (runCalls gid σ calls) gid g.current_cycle).getD 0 =
       (acceptedCalls gid σ calls).length ∧
     (∀ a, a ∈ acceptedCalls gid σ calls →
        ∃ r, getContribution (runCalls gid σ calls) gid g.current_cycle a = some r ∧
          r.amount = g.contribution_amount) ∧
     (∀ a, a ∉ acceptedCalls gid σ calls →
        getContribution (runCalls gid σ calls) gid g.current_cycle a = none) ∧
     (acceptedCalls gid σ calls).Nodup ∧
     ((acceptedCalls gid σ calls).map
         (fun a => ((getContribution (runCalls gid σ calls) gid g.current_cycle a).map
            ContributionRecord.amount).getD 0)).sum =
       (getCycleTotal (runCalls gid σ calls) gid g.current_cycle).getD 0) ∧
    (∀ σ2 c2 t2 g2, getGroup σ2 gid = some g2 →
      (contribute σ2 gid c2 t2).1 = Except.ok () →
      getCycleTotal ((contribute σ2 gid c2 t2).2.1) gid g2.current_cycle =
        some ((getCycleTotal σ2 gid g2.current_cycle).getD 0 + g2.contribution_amount) ∧
      getCycleCount ((contribute σ2 gid c2 t2).2.1) gid g2.current_cycle =
        some ((getCycleCount σ2 gid g2.current_cycle).getD 0 + 1)) := by
  have hbase := runCalls_inv gid g calls σ []
    hg (by simp [htot]) (by simp [hcnt])
    (by intro a ha; exact absurd ha (List.not_mem_nil a))
    (fun a _ => hrec a)
    List.nodup_nil
  rw [List.nil_append] at hbase
  obtain ⟨b1, b2, b3, b4, b5, b6⟩ := hbase
  constructor
  · refine ⟨b2, b3, b4, ?_, b6, ?_⟩
    · intro a ha
      have hn := b5 a ha
      unfold getContribution
      rw [hn]
    · have hmap : ∀ a ∈ acceptedCalls gid σ calls,
          ((getContribution (runCalls gid σ calls) gid g.current_cycle a).map
             ContributionRecord.amount).getD 0 = g.contribution_amount := by
        intro a ha
        obtain ⟨r, hr, hra⟩ := b4 a ha
        rw [hr]
        simp [hra]
      rw [List.map_congr_left hmap, List.map_const', List.sum_replicate, b2]
      simp [nsmul_eq_mul]
  · intro σ2 c2 t2 g2 hg2 hok
    rcases contribute_cases σ2 gid c2 t2 with ⟨e, he⟩ | ⟨g3, hg3, hmem, hst, hamt, hrec2, heq⟩
    · rw [he] at hok
      simp at hok
    · have hgg : g3 = g2 := Option.some.inj (hg3.symm.trans hg2)
      subst hgg
      rw [heq]
      exact ⟨successStore_getCycleTotal σ2 gid c2 t2 g3,
             successStore_getCycleCount σ2 gid c2 t2 g3⟩

/-- C4 witness: three calls, of which the duplicate by alice is rejected,
leave cycle_total at two times the fixed amount. -/
theorem cycle_aggregates_spec_witness :
    (getCycleTotal (runCalls 1 σW [("alice", 5), ("bob", 6), ("alice", 7)]) 1
       gW.current_cycle).getD 0 =
      ((acceptedCalls 1 σW [("alice", 5), ("bob", 6), ("alice", 7)]).length : Int) *
        gW.contribution_amount :=
  (cycle_aggregates_spec σW 1 gW [("alice", 5), ("bob", 6), ("alice", 7)]
    rfl rfl rfl (fun _ => rfl)).1.1

end StellarSave
